import Mathlib

/-!
Shallow embedding of the `MetaAlgorithm` metaclass from the two notebooks of
python-supply/static-checking-via-metaclasses, together with theorems about
its validation behaviour at class-definition time.

The validator intercepts class construction: given a candidate class name,
its bases and its attribute table, it either raises a `RuntimeError` (the
definition is rejected and no class descriptor exists) or delegates to
`type.__new__`, which produces the class descriptor from exactly the
arguments given.
-/

/-- A Python runtime value, distinguished only up to the properties the
validator inspects: being a `str` instance, being a `types.FunctionType`
instance (a plain function object), and being callable.  Plain functions are
callable; built-in functions and classes are callable but are not
`FunctionType`; `staticmethod`/`classmethod` wrapper objects (Python 3.8) and
data values are not callable. -/
inductive PyValue where
  | str (s : String)
  | int (n : Int)
  | bool (b : Bool)
  | function (name : String)
  | builtin (name : String)
  | cls (name : String)
  | staticmethodObj (name : String)
  | classmethodObj (name : String)
  | none
deriving DecidableEq, Repr

/-- `isinstance(v, str)`. -/
def isinstance_str : PyValue → Bool
  | PyValue.str _ => true
  | _ => false

/-- `isinstance(v, types.FunctionType)`: only plain function objects. -/
def isinstance_FunctionType : PyValue → Bool
  | PyValue.function _ => true
  | _ => false

/-- `callable(v)`: plain functions, built-in functions and classes are
callable; strings, numbers, `None` and (in Python 3.8) `staticmethod` /
`classmethod` wrapper objects are not. -/
def is_callable : PyValue → Bool
  | PyValue.function _ => true
  | PyValue.builtin _ => true
  | PyValue.cls _ => true
  | _ => false

/-- The `attrs` dictionary passed to `__new__`: a finite mapping from
attribute names to values, embedded as an association list (keys unique). -/
abbrev Attrs := List (String × PyValue)

/-- `attrs[k]` as a partial lookup (first binding of `k`). -/
def lookupAttr (attrs : Attrs) (k : String) : Option PyValue :=
  List.lookup k attrs

/-- `k in attrs`. -/
def hasKey (attrs : Attrs) (k : String) : Bool :=
  (lookupAttr attrs k).isSome

/-- `attrs[k]`, total with a `None` default.  The validator only consults it
after `k in attrs` has succeeded (Python's short-circuiting `or`), so the
default is never observable. -/
def getItem (attrs : Attrs) (k : String) : PyValue :=
  (lookupAttr attrs k).getD PyValue.none

/-- The condition of the first check of `MetaAlgorithm.__new__`:
`'contributor' not in attrs or not isinstance(attrs['contributor'], str)`. -/
def contributorMissing (attrs : Attrs) : Bool :=
  !(hasKey attrs "contributor") || !(isinstance_str (getItem attrs "contributor"))

/-- The condition of the second check:
`'train' not in attrs or not isinstance(attrs['train'], FunctionType)`. -/
def trainMissing (attrs : Attrs) : Bool :=
  !(hasKey attrs "train") || !(isinstance_FunctionType (getItem attrs "train"))

/-- The condition of the third check:
`'classify' not in attrs or not isinstance(attrs['classify'], FunctionType)`. -/
def classifyMissing (attrs : Attrs) : Bool :=
  !(hasKey attrs "classify") || !(isinstance_FunctionType (getItem attrs "classify"))

/-- The class descriptor: name, bases and attribute table, as created by
`type.__new__`.  Bases are identified by their names; the validator never
inspects them. -/
structure ClassDescriptor where
  clsname : String
  bases : List String
  attrs : Attrs
deriving DecidableEq, Repr

/-- `super(MetaAlgorithm, cls).__new__(cls, clsname, bases, attrs)`, i.e.
`type.__new__`: the underlying class-descriptor constructor, which builds the
descriptor from exactly the arguments it receives. -/
def type_new (clsname : String) (bases : List String) (attrs : Attrs) : ClassDescriptor :=
  { clsname := clsname, bases := bases, attrs := attrs }

/-- `MetaAlgorithm.__new__` as defined in `src/unnamed/part_000`: skip every
check when `clsname` is the root name, otherwise raise on the first failing
check (`Except.error` carries the `RuntimeError` message), and finally
delegate to `type_new`. -/
def metaAlgorithmNew (clsname : String) (bases : List String) (attrs : Attrs) :
    Except String ClassDescriptor :=
  if clsname ≠ "Algorithm" then
    if contributorMissing attrs then
      Except.error "missing contributor"
    else if trainMissing attrs then
      Except.error "missing training method"
    else if classifyMissing attrs then
      Except.error "missing classification method"
    else
      Except.ok (type_new clsname bases attrs)
  else
    Except.ok (type_new clsname bases attrs)

/-- `MetaAlgorithm.__new__` as defined in
`src/static-checking-via-metaclasses.ipynb`: the same checks in the same
order; only the message of the first `RuntimeError` differs
(`missing contributor information`). -/
def metaAlgorithmNewNb (clsname : String) (bases : List String) (attrs : Attrs) :
    Except String ClassDescriptor :=
  if clsname ≠ "Algorithm" then
    if contributorMissing attrs then
      Except.error "missing contributor information"
    else if trainMissing attrs then
      Except.error "missing training method"
    else if classifyMissing attrs then
      Except.error "missing classification method"
    else
      Except.ok (type_new clsname bases attrs)
  else
    Except.ok (type_new clsname bases attrs)

/-- The spec's failure taxonomy. -/
inductive FailureKind where
  | missingContributor
  | missingTrainMethod
  | missingClassifyMethod
deriving DecidableEq, Repr

/-- Map a `RuntimeError` message of either notebook to its failure kind. -/
def kindOfMessage (m : String) : Option FailureKind :=
  if m = "missing contributor" then some FailureKind.missingContributor
  else if m = "missing contributor information" then some FailureKind.missingContributor
  else if m = "missing training method" then some FailureKind.missingTrainMethod
  else if m = "missing classification method" then some FailureKind.missingClassifyMethod
  else Option.none

/-- A construction outcome up to failure kind: descriptors are kept as they
are, error messages are replaced by their kind. -/
def outcomeKind : Except String ClassDescriptor → Except (Option FailureKind) ClassDescriptor
  | Except.ok d => Except.ok d
  | Except.error m => Except.error (kindOfMessage m)

/-- The spec's definition-attempt state machine: the candidate tuple has been
collected but not checked, or the descriptor exists, or the attempt was
aborted with a `RuntimeError` message. -/
inductive DefState where
  | unvalidated (clsname : String) (bases : List String) (attrs : Attrs)
  | validated (d : ClassDescriptor)
  | rejected (msg : String)
deriving DecidableEq, Repr

/-- A definition attempt steps from `unvalidated` to `validated` or
`rejected` according to `metaAlgorithmNew`; no other transition exists. -/
inductive DefStep : DefState → DefState → Prop where
  | validate (n : String) (b : List String) (a : Attrs) (d : ClassDescriptor) :
      metaAlgorithmNew n b a = Except.ok d →
      DefStep (DefState.unvalidated n b a) (DefState.validated d)
  | reject (n : String) (b : List String) (a : Attrs) (m : String) :
      metaAlgorithmNew n b a = Except.error m →
      DefStep (DefState.unvalidated n b a) (DefState.rejected m)

/-- Instances of a definition can be constructed only once its descriptor
exists. -/
def instancesConstructible : DefState → Bool
  | DefState.validated _ => true
  | _ => false

/-- `k` successive validation runs on the same `(name, bases, attrs)` tuple;
the validator has no state, so each run is the same call. -/
def validateTimes (k : Nat) (n : String) (b : List String) (a : Attrs) :
    List (Except String ClassDescriptor) :=
  (List.range k).map (fun _ => metaAlgorithmNew n b a)

/-- The attribute table of the spec's successful scenario:
`{contributor: "Author", train: <fn>, classify: <fn>}`. -/
def guessAttrs : Attrs :=
  [("contributor", PyValue.str "Author"),
   ("train", PyValue.function "train"),
   ("classify", PyValue.function "classify")]

theorem check_fails_of (a : Attrs) (k : String) (p : PyValue → Bool)
    (h : lookupAttr a k = Option.none ∨ ∃ v, lookupAttr a k = some v ∧ p v = false) :
    (!(hasKey a k) || !(p (getItem a k))) = true := by
  rcases h with h | ⟨v, hv, hp⟩
  · simp [hasKey, h]
  · simp [hasKey, getItem, hv, hp]

theorem check_passes_of (a : Attrs) (k : String) (p : PyValue → Bool)
    (h : ∃ v, lookupAttr a k = some v ∧ p v = true) :
    (!(hasKey a k) || !(p (getItem a k))) = false := by
  rcases h with ⟨v, hv, hp⟩
  simp [hasKey, getItem, hv, hp]

theorem not_callable_not_FunctionType (v : PyValue) (h : is_callable v = false) :
    isinstance_FunctionType v = false := by
  cases v <;> simp_all [is_callable, isinstance_FunctionType]

/-- Claim C1: for every candidate whose name equals the root name
`Algorithm`, validation succeeds and the descriptor is produced, regardless
of the contents of `attrs` and regardless of `bases`: all three rule checks
are skipped and `type_new` is applied directly. -/
theorem root_name_exempt (b : List String) (a : Attrs) :
    metaAlgorithmNew "Algorithm" b a = Except.ok (type_new "Algorithm" b a) := by
  simp [metaAlgorithmNew]

/-- Claim C2: for every non-root candidate whose `attrs` lacks the key
`contributor` or maps it to a non-string value, validation fails with the
MissingContributor error and no class descriptor is produced. -/
theorem missing_contributor_rejected (n : String) (b : List String) (a : Attrs)
    (hn : n ≠ "Algorithm")
    (h : lookupAttr a "contributor" = Option.none ∨
         ∃ v, lookupAttr a "contributor" = some v ∧ isinstance_str v = false) :
    metaAlgorithmNew n b a = Except.error "missing contributor" ∧
    kindOfMessage "missing contributor" = some FailureKind.missingContributor ∧
    ∀ d, metaAlgorithmNew n b a ≠ Except.ok d := by
  have hc : contributorMissing a = true := check_fails_of a "contributor" isinstance_str h
  have he : metaAlgorithmNew n b a = Except.error "missing contributor" := by
    unfold metaAlgorithmNew
    rw [if_pos hn, if_pos hc]
  refine ⟨he, rfl, ?_⟩
  intro d hd
  rw [he] at hd
  exact Except.noConfusion hd

theorem missing_contributor_rejected_witness :
    metaAlgorithmNew "Guess" [] [] = Except.error "missing contributor" :=
  (missing_contributor_rejected "Guess" [] [] (by decide) (Or.inl rfl)).1

/-- Claim C3: for every non-root candidate whose `attrs` contains a
string-valued `contributor` but lacks the key `train` or maps it to a
non-callable value, validation fails with the MissingTrainMethod error and
no class descriptor is produced. -/
theorem missing_train_rejected (n : String) (b : List String) (a : Attrs)
    (hn : n ≠ "Algorithm")
    (hc : ∃ v, lookupAttr a "contributor" = some v ∧ isinstance_str v = true)
    (ht : lookupAttr a "train" = Option.none ∨
          ∃ v, lookupAttr a "train" = some v ∧ is_callable v = false) :
    metaAlgorithmNew n b a = Except.error "missing training method" ∧
    kindOfMessage "missing training method" = some FailureKind.missingTrainMethod ∧
    ∀ d, metaAlgorithmNew n b a ≠ Except.ok d := by
  have h1 : contributorMissing a = false := check_passes_of a "contributor" isinstance_str hc
  have h2 : trainMissing a = true := by
    refine check_fails_of a "train" isinstance_FunctionType ?_
    rcases ht with ht | ⟨v, hv, hcall⟩
    · exact Or.inl ht
    · exact Or.inr ⟨v, hv, not_callable_not_FunctionType v hcall⟩
  have he : metaAlgorithmNew n b a = Except.error "missing training method" := by
    unfold metaAlgorithmNew
    rw [if_pos hn, if_neg (by simp [h1]), if_pos h2]
  refine ⟨he, rfl, ?_⟩
  intro d hd
  rw [he] at hd
  exact Except.noConfusion hd

theorem missing_train_rejected_witness :
    metaAlgorithmNew "Guess" [] [("contributor", PyValue.str "Author")] =
      Except.error "missing training method" :=
  (missing_train_rejected "Guess" [] [("contributor", PyValue.str "Author")]
    (by decide) ⟨PyValue.str "Author", rfl, rfl⟩ (Or.inl rfl)).1

/-- Claim C4: for every non-root candidate whose `attrs` contains a
string-valued `contributor` and a `train` that is a plain function, but
lacks the key `classify` or maps it to a non-callable value, validation
fails with the MissingClassifyMethod error and no class descriptor is
produced. -/
theorem missing_classify_rejected (n : String) (b : List String) (a : Attrs)
    (hn : n ≠ "Algorithm")
    (hc : ∃ v, lookupAttr a "contributor" = some v ∧ isinstance_str v = true)
    (ht : ∃ v, lookupAttr a "train" = some v ∧ isinstance_FunctionType v = true)
    (hk : lookupAttr a "classify" = Option.none ∨
          ∃ v, lookupAttr a "classify" = some v ∧ is_callable v = false) :
    metaAlgorithmNew n b a = Except.error "missing classification method" ∧
    kindOfMessage "missing classification method" = some FailureKind.missingClassifyMethod ∧
    ∀ d, metaAlgorithmNew n b a ≠ Except.ok d := by
  have h1 : contributorMissing a = false := check_passes_of a "contributor" isinstance_str hc
  have h2 : trainMissing a = false := check_passes_of a "train" isinstance_FunctionType ht
  have h3 : classifyMissing a = true := by
    refine check_fails_of a "classify" isinstance_FunctionType ?_
    rcases hk with hk | ⟨v, hv, hcall⟩
    · exact Or.inl hk
    · exact Or.inr ⟨v, hv, not_callable_not_FunctionType v hcall⟩
  have he : metaAlgorithmNew n b a = Except.error "missing classification method" := by
    unfold metaAlgorithmNew
    rw [if_pos hn, if_neg (by simp [h1]), if_neg (by simp [h2]), if_pos h3]
  refine ⟨he, rfl, ?_⟩
  intro d hd
  rw [he] at hd
  exact Except.noConfusion hd

theorem missing_classify_rejected_witness :
    metaAlgorithmNew "Guess" []
        [("contributor", PyValue.str "Author"), ("train", PyValue.function "train")] =
      Except.error "missing classification method" :=
  (missing_classify_rejected "Guess" []
    [("contributor", PyValue.str "Author"), ("train", PyValue.function "train")]
    (by decide) ⟨PyValue.str "Author", rfl, rfl⟩ ⟨PyValue.function "train", rfl, rfl⟩
    (Or.inl rfl)).1

/-- Claim C5: for every non-root candidate the rules are applied in the
fixed order contributor, train, classify, and the outcome is the error of
the earliest failing rule: a failing contributor check decides the outcome
whatever the state of the other two checks, a failing train check decides
it whenever the contributor check passes, and the classify check is reached
only when both earlier checks pass. -/
theorem checks_in_fixed_order (n : String) (b : List String) (a : Attrs)
    (hn : n ≠ "Algorithm") :
    (contributorMissing a = true →
        metaAlgorithmNew n b a = Except.error "missing contributor") ∧
    (contributorMissing a = false → trainMissing a = true →
        metaAlgorithmNew n b a = Except.error "missing training method") ∧
    (contributorMissing a = false → trainMissing a = false → classifyMissing a = true →
        metaAlgorithmNew n b a = Except.error "missing classification method") := by
  refine ⟨fun h1 => ?_, fun h1 h2 => ?_, fun h1 h2 h3 => ?_⟩
  · unfold metaAlgorithmNew
    rw [if_pos hn, if_pos h1]
  · unfold metaAlgorithmNew
    rw [if_pos hn, if_neg (by simp [h1]), if_pos h2]
  · unfold metaAlgorithmNew
    rw [if_pos hn, if_neg (by simp [h1]), if_neg (by simp [h2]), if_pos h3]

theorem checks_in_fixed_order_witness :
    metaAlgorithmNew "Guess" ["Algorithm"] [("classify", PyValue.function "classify")] =
      Except.error "missing contributor" :=
  (checks_in_fixed_order "Guess" ["Algorithm"] [("classify", PyValue.function "classify")]
    (by decide)).1 rfl

/-- Claim C6: whenever validation succeeds, the validator delegates to the
underlying constructor `type_new` and returns its result unchanged, so the
produced descriptor's name, bases and attribute table are exactly the
`name`, `bases` and `attrs` that were passed in. -/
theorem success_is_pass_through (n : String) (b : List String) (a : Attrs)
    (d : ClassDescriptor) (h : metaAlgorithmNew n b a = Except.ok d) :
    d = type_new n b a ∧ d.clsname = n ∧ d.bases = b ∧ d.attrs = a := by
  have hd : d = type_new n b a := by
    unfold metaAlgorithmNew at h
    split at h
    · split at h
      · exact Except.noConfusion h
      · split at h
        · exact Except.noConfusion h
        · split at h
          · exact Except.noConfusion h
          · injection h with h
            exact h.symm
    · injection h with h
      exact h.symm
  subst hd
  exact ⟨rfl, rfl, rfl, rfl⟩

theorem success_is_pass_through_witness :
    type_new "Guess" ["Algorithm"] guessAttrs = type_new "Guess" ["Algorithm"] guessAttrs ∧
    (type_new "Guess" ["Algorithm"] guessAttrs).clsname = "Guess" ∧
    (type_new "Guess" ["Algorithm"] guessAttrs).bases = ["Algorithm"] ∧
    (type_new "Guess" ["Algorithm"] guessAttrs).attrs = guessAttrs :=
  success_is_pass_through "Guess" ["Algorithm"] guessAttrs
    (type_new "Guess" ["Algorithm"] guessAttrs) rfl

/-- Claim C7: a failed validation is terminal.  Every step a failing
definition attempt can take leads to the `rejected` state, in which no
instance is constructible, and the `rejected` state has no outgoing
transition at all — in particular no descriptor ever comes into existence
for that attempt. -/
theorem rejected_is_terminal (n : String) (b : List String) (a : Attrs) (m : String)
    (h : metaAlgorithmNew n b a = Except.error m) :
    (∀ t, DefStep (DefState.unvalidated n b a) t →
        t = DefState.rejected m ∧ instancesConstructible t = false) ∧
    (∀ t, ¬ DefStep (DefState.rejected m) t) := by
  constructor
  · intro t hstep
    cases hstep with
    | validate _ _ _ d hok =>
        rw [h] at hok
        exact Except.noConfusion hok
    | reject _ _ _ m2 herr =>
        rw [h] at herr
        injection herr with hm
        subst hm
        exact ⟨rfl, rfl⟩
  · intro t hstep
    cases hstep

theorem rejected_is_terminal_witness :
    ¬ DefStep (DefState.rejected "missing contributor")
        (DefState.validated (type_new "Guess" [] [])) :=
  (rejected_is_terminal "Guess" [] [] "missing contributor" rfl).2
    (DefState.validated (type_new "Guess" [] []))

/-- Claim C8: validation is deterministic and idempotent; running the
validator any number of times on the same `(name, bases, attrs)` tuple
yields the same outcome as a single run, every time — the outcome is a
function of the tuple alone and no hidden state influences it. -/
theorem validation_idempotent (k : Nat) (n : String) (b : List String) (a : Attrs) :
    validateTimes k n b a = List.replicate k (metaAlgorithmNew n b a) := by
  induction k with
  | zero => rfl
  | succ k ih =>
      unfold validateTimes at ih ⊢
      rw [List.range_succ, List.map_append, ih, List.replicate_succ']
      rfl

/-- Claim C9: the `MetaAlgorithm.__new__` implementations of the two
notebooks are behaviourally equivalent: on every input they either both
accept and produce the same descriptor, or both reject with the same
failure kind (only the wording of the MissingContributor message
differs). -/
theorem notebooks_equivalent (n : String) (b : List String) (a : Attrs) :
    outcomeKind (metaAlgorithmNew n b a) = outcomeKind (metaAlgorithmNewNb n b a) := by
  unfold metaAlgorithmNew metaAlgorithmNewNb
  by_cases hn : n ≠ "Algorithm"
  · rw [if_pos hn, if_pos hn]
    by_cases h1 : contributorMissing a = true
    · rw [if_pos h1, if_pos h1]
      rfl
    · rw [if_neg h1, if_neg h1]
  · rw [if_neg hn, if_neg hn]

/-- Claim C10: the kind check for `train` and `classify` demands a plain
function object (`FunctionType`), not mere callability: a non-root
candidate with a valid contributor whose `train` is callable but not a
plain function is rejected with MissingTrainMethod, and likewise a callable
non-function `classify` is rejected with MissingClassifyMethod. -/
theorem plain_function_required (n : String) (b : List String) (a : Attrs)
    (hn : n ≠ "Algorithm")
    (hc : ∃ v, lookupAttr a "contributor" = some v ∧ isinstance_str v = true) :
    (∀ v, lookupAttr a "train" = some v → is_callable v = true →
        isinstance_FunctionType v = false →
        metaAlgorithmNew n b a = Except.error "missing training method") ∧
    (∀ v w, lookupAttr a "train" = some v → isinstance_FunctionType v = true →
        lookupAttr a "classify" = some w → is_callable w = true →
        isinstance_FunctionType w = false →
        metaAlgorithmNew n b a = Except.error "missing classification method") := by
  have h1 : contributorMissing a = false := check_passes_of a "contributor" isinstance_str hc
  constructor
  · intro v hv _ hft
    have h2 : trainMissing a = true :=
      check_fails_of a "train" isinstance_FunctionType (Or.inr ⟨v, hv, hft⟩)
    unfold metaAlgorithmNew
    rw [if_pos hn, if_neg (by simp [h1]), if_pos h2]
  · intro v w hv hft hw _ hwft
    have h2 : trainMissing a = false :=
      check_passes_of a "train" isinstance_FunctionType ⟨v, hv, hft⟩
    have h3 : classifyMissing a = true :=
      check_fails_of a "classify" isinstance_FunctionType (Or.inr ⟨w, hw, hwft⟩)
    unfold metaAlgorithmNew
    rw [if_pos hn, if_neg (by simp [h1]), if_neg (by simp [h2]), if_pos h3]

theorem plain_function_required_witness :
    metaAlgorithmNew "Guess" []
        [("contributor", PyValue.str "Author"), ("train", PyValue.builtin "len"),
         ("classify", PyValue.function "classify")] =
      Except.error "missing training method" :=
  (plain_function_required "Guess" []
    [("contributor", PyValue.str "Author"), ("train", PyValue.builtin "len"),
     ("classify", PyValue.function "classify")]
    (by decide) ⟨PyValue.str "Author", rfl, rfl⟩).1 (PyValue.builtin "len") rfl rfl rfl
